import Mathlib

/-!
# webpack: `lib/cache/FileCachePlugin.js` and `lib/util/registerExternalSerializer.js`

A shallow embedding of the file cache plugin (the four keyed hook handlers
`storeModule`, `getModule`, `storeAsset`, `getAsset`) and of the four codecs
registered for `CachedSource`, `RawSource`, `OriginalSource` and
`SourceLocation`, followed by the theorems that settle the specification's
claims about them.

Promises are modelled by their settlement, the console by the list of lines
written to it, the filesystem by a map from path to file content.
-/

namespace JS

/-- JavaScript values that can reach the handlers: the primitives, symbols,
plain objects holding data properties only (own string keys, prototype
`Object.prototype`), and `Error` instances (with their `name`, `message` and
`stack` texts). Numbers are the integer-valued ones that print in plain
decimal. Functions, and hence thenables and getters, are not part of this
universe. -/
inductive JSValue where
  | undefined
  | null
  | bool (b : Bool)
  | num (n : Int)
  | str (s : String)
  | symbol (description : String)
  | obj (fields : List (String × JSValue))
  | error (name message stack : String)

/-- The `TypeError` the engine throws; its stack text is engine specific and
is left empty. -/
def typeError (message : String) : JSValue :=
  JSValue.error "TypeError" message ""

/-- ToBoolean: the truthiness tested by `if (warn)`. -/
def toBoolean : JSValue → Bool
  | .undefined => false
  | .null => false
  | .bool b => b
  | .num n => n != 0
  | .str s => s != ""
  | .symbol _ => true
  | .obj _ => true
  | .error _ _ _ => true

/-- The test `v !== undefined`. -/
def notUndefined : JSValue → Bool
  | .undefined => false
  | _ => true

/-- The test `v === s` for a string primitive `s`: true only for the string
primitive with the same text. -/
def strictEqualsString (v : JSValue) (s : String) : Bool :=
  match v with
  | .str t => t == s
  | _ => false

/-- Property read `v.key` for the property names the handlers read (`hash`,
`source`, `stack`), none of which is defined on a built-in prototype: reading
from `undefined` or `null` throws a `TypeError`; a plain object yields its own
data property or `undefined`; an `Error` instance yields its texts; every
other primitive yields `undefined`. -/
def getProp (v : JSValue) (key : String) : Except JSValue JSValue :=
  match v with
  | .undefined => .error (typeError ("Cannot read property " ++ key ++ " of undefined"))
  | .null => .error (typeError ("Cannot read property " ++ key ++ " of null"))
  | .obj fields => .ok ((fields.lookup key).getD .undefined)
  | .error name message stack =>
    .ok (if key = "stack" then .str stack
      else if key = "message" then .str message
      else if key = "name" then .str name
      else .undefined)
  | _ => .ok .undefined

/-- ToString as applied by a template literal: a symbol throws a `TypeError`;
a plain object goes through `Object.prototype.toString` unless an own property
`toString` (a data property, hence not callable) shadows it, in which case
no primitive is obtained and a `TypeError` is thrown; an `Error` instance goes
through `Error.prototype.toString`. -/
def toStringJS : JSValue → Except JSValue String
  | .undefined => .ok "undefined"
  | .null => .ok "null"
  | .bool true => .ok "true"
  | .bool false => .ok "false"
  | .num n => .ok (toString n)
  | .str s => .ok s
  | .symbol _ => .error (typeError "Cannot convert a Symbol value to a string")
  | .obj fields =>
    if fields.any (fun kv => kv.1 == "toString") then
      .error (typeError "Cannot convert object to primitive value")
    else .ok "[object Object]"
  | .error name message _ =>
    .ok (if name = "" then message
      else if message = "" then name
      else name ++ ": " ++ message)

/-- How a promise settled. -/
inductive Settled where
  | fulfilled (value : JSValue)
  | rejected (reason : JSValue)

/-- Whether the promise is fulfilled. -/
def Settled.isFulfilled : Settled → Bool
  | .fulfilled _ => true
  | .rejected _ => false

/-- The lines written by `console.warn`, oldest first. -/
abbrev Console := List String

/-- The call `console.warn(text)`. -/
def consoleWarn (text : String) (console : Console) : Console :=
  console ++ [text]

/-- A reaction callback: given the settled value and the console, it returns
or throws, and leaves a console. -/
abbrev Callback := JSValue → Console → Except JSValue JSValue × Console

/-- Settlement of the promise derived from a callback run: a returned value
fulfils it (no value of the universe is a thenable), a thrown one rejects it. -/
def settle : Except JSValue JSValue → Settled
  | .ok v => .fulfilled v
  | .error e => .rejected e

/-- The promise `p.then(onFulfilled, onRejected)`: exactly one callback runs,
and what it throws is not seen by the other. -/
def promiseThen (p : Settled) (onFulfilled onRejected : Callback)
    (console : Console) : Settled × Console :=
  match p with
  | .fulfilled v => (settle (onFulfilled v console).1, (onFulfilled v console).2)
  | .rejected e => (settle (onRejected e console).1, (onRejected e console).2)

/-- The promise `p.catch(onRejected)`: a fulfilment passes through. -/
def promiseCatch (p : Settled) (onRejected : Callback)
    (console : Console) : Settled × Console :=
  match p with
  | .fulfilled v => (.fulfilled v, console)
  | .rejected e => (settle (onRejected e console).1, (onRejected e console).2)

end JS

namespace FileCachePlugin

open JS

/-- Rejection callback of `storeModule` (lines 50-54). -/
def storeModuleOnRejected (warn : JSValue) (identifier : String) : Callback :=
  fun err console =>
    if toBoolean warn then
      match toStringJS err with
      | .error t => (.error t, console)
      | .ok s =>
        (.ok .undefined,
          consoleWarn ("Caching failed for module " ++ identifier ++ ": " ++ s) console)
    else (.ok .undefined, console)

/-- Rejection callback of `getModule` (lines 62-68): it prints `err.stack`. -/
def getModuleOnRejected (warn : JSValue) (identifier : String) : Callback :=
  fun err console =>
    if toBoolean warn then
      match getProp err "stack" with
      | .error t => (.error t, console)
      | .ok stack =>
        match toStringJS stack with
        | .error t => (.error t, console)
        | .ok s =>
          (.ok .undefined,
            consoleWarn ("Restoring failed for module " ++ identifier ++ ": " ++ s) console)
    else (.ok .undefined, console)

/-- Rejection callback of `storeAsset` (lines 79-83). -/
def storeAssetOnRejected (warn : JSValue) (identifier : String) : Callback :=
  fun err console =>
    if toBoolean warn then
      match toStringJS err with
      | .error t => (.error t, console)
      | .ok s =>
        (.ok .undefined,
          consoleWarn ("Caching failed for asset " ++ identifier ++ ": " ++ s) console)
    else (.ok .undefined, console)

/-- Fulfilment callback of `getAsset` (lines 94-98):
`if (cacheEntry !== undefined && cacheEntry.hash === hash) return cacheEntry.source;`
and otherwise the function ends, returning `undefined`. -/
def getAssetOnFulfilled (hash : String) : Callback :=
  fun cacheEntry console =>
    if notUndefined cacheEntry then
      match getProp cacheEntry "hash" with
      | .error t => (.error t, console)
      | .ok h =>
        if strictEqualsString h hash then
          match getProp cacheEntry "source" with
          | .error t => (.error t, console)
          | .ok source => (.ok source, console)
        else (.ok .undefined, console)
    else (.ok .undefined, console)

/-- Rejection callback of `getAsset` (lines 99-103). -/
def getAssetOnRejected (warn : JSValue) (identifier : String) : Callback :=
  fun err console =>
    if toBoolean warn then
      match toStringJS err with
      | .error t => (.error t, console)
      | .ok s =>
        (.ok .undefined,
          consoleWarn ("Restoring failed for asset " ++ identifier ++ ": " ++ s) console)
    else (.ok .undefined, console)

/-- The promise returned by the `storeModule` handler, given how
`serializer.serializeToFile(module, filename)` settled. -/
def storeModuleHandler (warn : JSValue) (identifier : String)
    (serialized : Settled) (console : Console) : Settled × Console :=
  promiseCatch serialized (storeModuleOnRejected warn identifier) console

/-- The promise returned by the `getModule` handler, given how
`serializer.deserializeFromFile(filename)` settled. -/
def getModuleHandler (warn : JSValue) (identifier : String)
    (deserialized : Settled) (console : Console) : Settled × Console :=
  promiseCatch deserialized (getModuleOnRejected warn identifier) console

/-- The promise returned by the `storeAsset` handler, given how
`serializer.serializeToFile({ source, hash }, filename)` settled. -/
def storeAssetHandler (warn : JSValue) (identifier : String)
    (serialized : Settled) (console : Console) : Settled × Console :=
  promiseCatch serialized (storeAssetOnRejected warn identifier) console

/-- The promise returned by the `getAsset` handler, given how
`serializer.deserializeFromFile(filename)` settled. -/
def getAssetHandler (warn : JSValue) (identifier hash : String)
    (deserialized : Settled) (console : Console) : Settled × Console :=
  promiseThen deserialized (getAssetOnFulfilled hash)
    (getAssetOnRejected warn identifier) console

/-- The collaborators outside the repository that `apply` calls: Node's
`path.join`, the directory `path.resolve(process.cwd(), "node_modules/.cache/webpack")`,
and the digest computation behind a hash object. -/
structure Platform where
  /-- Node: `path.join(directory, name)`. -/
  join : String → String → String
  /-- Node: `path.resolve(process.cwd(), "node_modules/.cache/webpack")`. -/
  defaultCacheDirectory : String
  /-- The hex digest of the data fed to a hash object of the named algorithm. -/
  digestHex : String → String → String

/-- Modelled from the spec: `lib/util/createHash` is not among the sources. The
spec gives the hashing function as deterministic, selected by an algorithm
name, mapping a string to a hex string; a hash object therefore holds the
algorithm's name and the data fed to it so far. -/
structure Hash where
  algorithm : String
  data : String

/-- Modelled from the spec: `createHash(algorithm)` returns a fresh hash object,
one that has been fed nothing. -/
def createHash (algorithm : String) : Hash :=
  ⟨algorithm, ""⟩

/-- Modelled from the spec: `hash.update(str)` feeds `str` to the hash object. -/
def Hash.update (hash : Hash) (str : String) : Hash :=
  ⟨hash.algorithm, hash.data ++ str⟩

/-- Modelled from the spec: `hash.digest("hex")`, the hex digest of what the
hash object was fed. -/
def Hash.digest (P : Platform) (hash : Hash) : String :=
  P.digestHex hash.algorithm hash.data

/-- The plugin's options as read by `apply`: `cacheDirectory` and
`hashAlgorithm` are strings or missing, `warn` is any value. -/
structure Options where
  cacheDirectory : Option String
  hashAlgorithm : Option String
  warn : JSValue

/-- The expression `option || fallback` for an option that is a string or
missing: the empty string is falsy too. -/
def orDefault (option : Option String) (fallback : String) : String :=
  match option with
  | none => fallback
  | some s => if s = "" then fallback else s

/-- The constant `cacheDirectory` of `apply` (lines 27-29). -/
def cacheDirectory (P : Platform) (options : Options) : String :=
  orDefault options.cacheDirectory P.defaultCacheDirectory

/-- The constant `hashAlgorithm` of `apply` (line 30). -/
def hashAlgorithm (options : Options) : String :=
  orDefault options.hashAlgorithm "md4"

/-- The function `toHash` of `apply` (lines 32-36). -/
def toHash (P : Platform) (options : Options) (str : String) : String :=
  let hash := createHash (hashAlgorithm options)
  let hash := hash.update str
  hash.digest P

/-- The `filename` computed by the `storeModule` handler (lines 46-49). -/
def storeModuleFilename (P : Platform) (options : Options) (identifier : String) : String :=
  P.join (cacheDirectory P options) (toHash P options identifier ++ ".module.data")

/-- The `filename` computed by the `getModule` handler (lines 58-61). -/
def getModuleFilename (P : Platform) (options : Options) (identifier : String) : String :=
  P.join (cacheDirectory P options) (toHash P options identifier ++ ".module.data")

/-- The `filename` computed by the `storeAsset` handler (lines 73-76). -/
def storeAssetFilename (P : Platform) (options : Options) (identifier : String) : String :=
  P.join (cacheDirectory P options) (toHash P options identifier ++ ".asset.data")

/-- The `filename` computed by the `getAsset` handler (lines 89-92). -/
def getAssetFilename (P : Platform) (options : Options) (identifier : String) : String :=
  P.join (cacheDirectory P options) (toHash P options identifier ++ ".asset.data")

/-- Modelled from the spec: `lib/util/serializer` is not among the sources. The
spec gives it as an encoder of a value into a byte sequence and a decoder
back, either of which may fail with an error; the byte format is left open,
so the type of file contents is a parameter. -/
structure Serializer (Bytes : Type) where
  serialize : JSValue → Except JSValue Bytes
  deserialize : Bytes → Except JSValue JSValue

/-- The filesystem: a map from path to the content of the file there. -/
abbrev FileSystem (Bytes : Type) := String → Option Bytes

/-- The filesystem with the file at `path` holding `content` (`none`: no file)
and every other path as before. -/
def FileSystem.set {Bytes : Type} (fs : FileSystem Bytes) (path : String)
    (content : Option Bytes) : FileSystem Bytes :=
  fun p => if p = path then content else fs p

/-- How the disk answers one write: it completes, or it fails with an error
and leaves some content (or no file) at the path written to. -/
inductive WriteOutcome (Bytes : Type) where
  | completed
  | failed (err : JSValue) (residue : Option Bytes)

/-- The error Node reports for a file that does not exist. -/
def noSuchFile (filename : String) : JSValue :=
  JSValue.error "Error" ("ENOENT: no such file or directory, open " ++ filename)
    ("Error: ENOENT: no such file or directory, open " ++ filename)

/-- Modelled from the spec: `serializer.serializeToFile(value, filename)`
encodes the value and writes the bytes to the file at `filename`, touching
no other file. It rejects with the encoder's error (nothing is written) or
with the disk's error (the file is left with whatever the failed write left);
it fulfils with `undefined` once the file holds the bytes. -/
def serializeToFile {Bytes : Type} (S : Serializer Bytes) (value : JSValue)
    (filename : String) (io : WriteOutcome Bytes) (fs : FileSystem Bytes) :
    Settled × FileSystem Bytes :=
  match S.serialize value with
  | .error e => (.rejected e, fs)
  | .ok bytes =>
    match io with
    | .completed => (.fulfilled .undefined, fs.set filename (some bytes))
    | .failed err residue => (.rejected err, fs.set filename residue)

/-- Modelled from the spec: `serializer.deserializeFromFile(filename)` reads the
file at `filename` and decodes it; a missing file and a decode error reject. -/
def deserializeFromFile {Bytes : Type} (S : Serializer Bytes) (filename : String)
    (fs : FileSystem Bytes) : Settled :=
  match fs filename with
  | none => .rejected (noSuchFile filename)
  | some bytes => settle (S.deserialize bytes)

/-- What a store handler leaves behind: its promise, the filesystem and the
console. -/
structure Stored (Bytes : Type) where
  promise : Settled
  fs : FileSystem Bytes
  console : Console

/-- The `storeModule` hook handler (lines 43-56). -/
def storeModule {Bytes : Type} (P : Platform) (S : Serializer Bytes) (options : Options)
    (identifier : String) (module : JSValue) (io : WriteOutcome Bytes)
    (fs : FileSystem Bytes) (console : Console) : Stored Bytes :=
  let filename := storeModuleFilename P options identifier
  let written := serializeToFile S module filename io fs
  let handled := storeModuleHandler options.warn identifier written.1 console
  ⟨handled.1, written.2, handled.2⟩

/-- The `getModule` hook handler (lines 57-69). -/
def getModule {Bytes : Type} (P : Platform) (S : Serializer Bytes) (options : Options)
    (identifier : String) (fs : FileSystem Bytes) (console : Console) :
    Settled × Console :=
  let filename := getModuleFilename P options identifier
  getModuleHandler options.warn identifier (deserializeFromFile S filename fs) console

/-- The `storeAsset` hook handler (lines 70-85): the entry written is the
object `{ source, hash }`. -/
def storeAsset {Bytes : Type} (P : Platform) (S : Serializer Bytes) (options : Options)
    (identifier : String) (hash : String) (source : JSValue) (io : WriteOutcome Bytes)
    (fs : FileSystem Bytes) (console : Console) : Stored Bytes :=
  let filename := storeAssetFilename P options identifier
  let written :=
    serializeToFile S (.obj [("source", source), ("hash", .str hash)]) filename io fs
  let handled := storeAssetHandler options.warn identifier written.1 console
  ⟨handled.1, written.2, handled.2⟩

/-- The `getAsset` hook handler (lines 86-106). -/
def getAsset {Bytes : Type} (P : Platform) (S : Serializer Bytes) (options : Options)
    (identifier : String) (hash : String) (fs : FileSystem Bytes) (console : Console) :
    Settled × Console :=
  let filename := getAssetFilename P options identifier
  getAssetHandler options.warn identifier hash (deserializeFromFile S filename fs) console

/-- A hex digit: `0`-`9` or `a`-`f`, as `digest("hex")` produces them. -/
def isHexDigit (c : Char) : Bool :=
  (48 ≤ c.toNat && c.toNat ≤ 57) || (97 ≤ c.toNat && c.toNat ≤ 102)

/-- A string of hex digits. -/
def isHexString (s : String) : Bool :=
  s.toList.all isHexDigit

/-- A letter, a digit or a dot. -/
def isNameChar (c : Char) : Bool :=
  c.toNat == 46 || (48 ≤ c.toNat && c.toNat ≤ 57) || (65 ≤ c.toNat && c.toNat ≤ 90)
    || (97 ≤ c.toNat && c.toNat ≤ 122)

/-- A plain file name: letters, digits and dots only, not dots alone. It holds
no path separator and is neither empty nor `.` nor `..`, so `path.join` keeps
it as the last segment of the joined path. -/
def isPlainFileName (s : String) : Bool :=
  s.toList.all isNameChar && s.toList.any (fun c => c.toNat != 46)

/-- The value of `v.key` where the read does not throw, `undefined` where it
does; used to state what the handlers return. -/
def propertyOf (v : JSValue) (key : String) : JSValue :=
  match getProp v key with
  | .ok x => x
  | .error _ => .undefined

/-- The text of `Error.prototype.toString` for an error with the given `name`
and `message`. -/
def errorText (name message : String) : String :=
  if name = "" then message else if message = "" then name else name ++ ": " ++ message

/-- A one-digit checksum standing in for a digest: the sum of the character
codes modulo 16, in hex. Strings with the same characters in another order
collide. -/
def checksumHex (data : String) : String :=
  String.singleton (Nat.digitChar (data.toList.foldl (fun acc c => (acc + c.toNat) % 16) 0))

/-- A platform on which the theorems are instantiated: paths are joined with
one slash and the digest is `checksumHex` for every algorithm. -/
def samplePlatform : Platform :=
  ⟨fun directory name => directory ++ "/" ++ name, "/work/node_modules/.cache/webpack",
    fun _ data => checksumHex data⟩

/-- A platform whose digest depends on the algorithm's name as well: the
checksum of the name followed by the data. -/
def keyedPlatform : Platform :=
  ⟨fun directory name => directory ++ "/" ++ name, "/work/node_modules/.cache/webpack",
    fun algorithm data => checksumHex (algorithm ++ data)⟩

/-- A serializer on which the theorems are instantiated: the content of a file
is the value itself, and decoding returns it. -/
def plainSerializer : Serializer JSValue :=
  ⟨fun value => .ok value, fun bytes => .ok bytes⟩

/-- Options naming a cache directory and enabling warnings. -/
def sampleOptions : Options :=
  ⟨some "/cache", none, .bool true⟩

/-- The filesystem holding no file. -/
def emptyFileSystem : FileSystem JSValue :=
  fun _ => none

end FileCachePlugin


namespace registerExternalSerializer

open JS

/-- An instance of webpack-sources `RawSource`: its `_value`. -/
structure RawSource where
  _value : JSValue

/-- An instance of webpack-sources `OriginalSource`: its `_value` and `_name`. -/
structure OriginalSource where
  _value : JSValue
  _name : JSValue

/-- An instance of webpack-sources `SourceMapSource` as built by
`new SourceMapSource(value, name, sourceMap)`. -/
structure SourceMapSource where
  _value : JSValue
  _name : JSValue
  _sourceMap : JSValue

/-- The sources a `CachedSource` can wrap, among them another `CachedSource`. -/
inductive Source where
  | raw (source : RawSource)
  | original (source : OriginalSource)
  | sourceMap (source : SourceMapSource)
  | cached (_source : Source)

/-- An instance of webpack-sources `CachedSource`: the wrapped `_source`. -/
structure CachedSource where
  _source : Source

/-- An acorn `Position`: `line` and `column`. -/
structure Position where
  line : JSValue
  column : JSValue

/-- An instance of acorn `SourceLocation`: `start`, `end`, and the field
`source`, which acorn sets only when the parser was given a `sourceFile`. -/
structure SourceLocation where
  start : Position
  «end» : Position
  source : Option JSValue

/-- The plain object `{ start: { line, column }, end: { line, column } }` that
the location codec returns (`RealDependencyLocation`). -/
structure RealDependencyLocation where
  start : Position
  «end» : Position

/-- What the codecs call outside the repository: `source.sourceAndMap({})` of a
`CachedSource` (its `source` and `map`), and `JSON.stringify`. -/
structure Library where
  sourceAndMap : CachedSource → JSValue × JSValue
  stringify : JSValue → JSValue

/-- Modelled from the spec: `lib/serialization/ObjectMiddleware` is not among the
sources. The serialization stream is a single ordered channel of values
produced by successive `write` calls; the context of `serialize` holds the
values written so far. -/
structure ObjectSerializerContext where
  written : List JSValue

/-- Modelled from the spec: `write(value)` appends one value to the stream. -/
def ObjectSerializerContext.write (context : ObjectSerializerContext) (value : JSValue) :
    ObjectSerializerContext :=
  ⟨context.written ++ [value]⟩

/-- Modelled from the spec: the context of `deserialize` holds the values of the
stream not yet consumed, and the number of `read` calls made. -/
structure ObjectDeserializerContext where
  remaining : List JSValue
  reads : Nat

/-- Modelled from the spec: `read()` consumes the next value of the stream, in
the order of writing; on an exhausted stream the decode fails. -/
def ObjectDeserializerContext.read (context : ObjectDeserializerContext) :
    Option (JSValue × ObjectDeserializerContext) :=
  match context.remaining with
  | [] => none
  | value :: rest => some (value, ⟨rest, context.reads + 1⟩)

/-- Method `source()` of `RawSource`. -/
def RawSource.source (source : RawSource) : JSValue :=
  source._value

/-- Method `source()` of `OriginalSource`. -/
def OriginalSource.source (source : OriginalSource) : JSValue :=
  source._value

/-- `CachedSourceSerializer.serialize` (lines 28-32). -/
def CachedSourceSerializer.serialize (L : Library) (source : CachedSource)
    (context : ObjectSerializerContext) : ObjectSerializerContext :=
  let data := L.sourceAndMap source
  let context := context.write data.1
  context.write (L.stringify data.2)

/-- `CachedSourceSerializer.deserialize` (lines 38-42). -/
def CachedSourceSerializer.deserialize (context : ObjectDeserializerContext) :
    Option (CachedSource × ObjectDeserializerContext) :=
  match context.read with
  | none => none
  | some (source, context) =>
    match context.read with
    | none => none
    | some (map, context) =>
      some (⟨.sourceMap ⟨source, .str "unknown", map⟩⟩, context)

/-- `RawSourceSerializer.serialize` (lines 56-59). -/
def RawSourceSerializer.serialize (source : RawSource)
    (context : ObjectSerializerContext) : ObjectSerializerContext :=
  let data := source.source
  context.write data

/-- `RawSourceSerializer.deserialize` (lines 65-68). -/
def RawSourceSerializer.deserialize (context : ObjectDeserializerContext) :
    Option (RawSource × ObjectDeserializerContext) :=
  match context.read with
  | none => none
  | some (source, context) => some (⟨source⟩, context)

/-- `OriginalSourceSerializer.serialize` (lines 82-85). -/
def OriginalSourceSerializer.serialize (source : OriginalSource)
    (context : ObjectSerializerContext) : ObjectSerializerContext :=
  let context := context.write source.source
  context.write source._name

/-- `OriginalSourceSerializer.deserialize` (lines 91-93): the two arguments of
`new OriginalSource(read(), read())` are evaluated left to right. -/
def OriginalSourceSerializer.deserialize (context : ObjectDeserializerContext) :
    Option (OriginalSource × ObjectDeserializerContext) :=
  match context.read with
  | none => none
  | some (value, context) =>
    match context.read with
    | none => none
    | some (name, context) => some (⟨value, name⟩, context)

/-- `SourceLocationSerializer.serialize` (lines 107-112). -/
def SourceLocationSerializer.serialize (loc : SourceLocation)
    (context : ObjectSerializerContext) : ObjectSerializerContext :=
  let context := context.write loc.start.line
  let context := context.write loc.start.column
  let context := context.write loc.end.line
  context.write loc.end.column

/-- `SourceLocationSerializer.deserialize` (lines 118-129): the properties of the
object literal are evaluated in the order written. -/
def SourceLocationSerializer.deserialize (context : ObjectDeserializerContext) :
    Option (RealDependencyLocation × ObjectDeserializerContext) :=
  match context.read with
  | none => none
  | some (startLine, context) =>
    match context.read with
    | none => none
    | some (startColumn, context) =>
      match context.read with
      | none => none
      | some (endLine, context) =>
        match context.read with
        | none => none
        | some (endColumn, context) =>
          some (⟨⟨startLine, startColumn⟩, ⟨endLine, endColumn⟩⟩, context)

/-- The values `serialize` wrote, starting from an empty stream. -/
def writtenBy (serialize : ObjectSerializerContext → ObjectSerializerContext) :
    List JSValue :=
  (serialize ⟨[]⟩).written

end registerExternalSerializer

namespace FileCachePlugin

open JS

/-! ## The handlers as functions of the settled serializer promise -/

theorem getAssetHandler_entry (warn : JSValue) (identifier hash : String)
    (console : Console) (entry h source : JSValue)
    (hdef : notUndefined entry = true)
    (hh : getProp entry "hash" = .ok h) (hs : getProp entry "source" = .ok source) :
    getAssetHandler warn identifier hash (.fulfilled entry) console
      = (.fulfilled (if strictEqualsString h hash then source else .undefined), console) := by
  by_cases hc : strictEqualsString h hash = true <;>
    simp [getAssetHandler, promiseThen, getAssetOnFulfilled, hdef, hh, hs, hc, settle]

/-- C1: when the asset file decodes to `null`, the test `cacheEntry !== undefined`
passes, reading `cacheEntry.hash` throws inside the fulfilment callback, and
the promise returned by the `getAsset` handler is rejected with that
`TypeError` instead of being fulfilled with `undefined`, whatever the `warn`
option, the identifier and the expected hash. -/
theorem getAsset_rejects_on_null_entry (warn : JSValue) (identifier hash : String)
    (console : Console) :
    getAssetHandler warn identifier hash (.fulfilled .null) console
      = (.rejected (typeError "Cannot read property hash of null"), console) := by
  simp [getAssetHandler, promiseThen, getAssetOnFulfilled, notUndefined, getProp, settle]

/-- C2: the promise returned by a handler can be rejected: by `getAsset` when
the file decodes to `null` (with `warn` off), by `getModule` with `warn` on
when the underlying promise rejects with `undefined` or with `null` (reading
`err.stack` throws), and by `storeModule` and `storeAsset` with `warn` on when
it rejects with a symbol (the template literal cannot convert it). -/
theorem handlers_reject_at_some_outcomes :
    (getAssetHandler (.bool false) "a.js" "H1" (.fulfilled .null) []).1.isFulfilled = false
    ∧ (getModuleHandler (.bool true) "./src/x.js" (.rejected .undefined) []).1.isFulfilled
        = false
    ∧ (getModuleHandler (.bool true) "./src/x.js" (.rejected .null) []).1.isFulfilled = false
    ∧ (storeModuleHandler (.bool true) "./src/x.js" (.rejected (.symbol "s")) []).1.isFulfilled
        = false
    ∧ (storeAssetHandler (.bool true) "a.js" (.rejected (.symbol "s")) []).1.isFulfilled
        = false := by
  refine ⟨?_, ?_, ?_, ?_, ?_⟩ <;> rfl

/-- C8: with `warn` on, a `getModule` whose underlying promise rejects with
`undefined` writes no warning at all: reading `err.stack` throws before
`console.warn` is reached, the console is left as it was and the handler's
promise is rejected. The sibling handlers, which print the error itself,
write their one warning at the same rejection. -/
theorem getModule_warns_nothing_on_undefined_error :
    getModuleHandler (.bool true) "./src/x.js" (.rejected .undefined) []
      = (.rejected (typeError "Cannot read property stack of undefined"), [])
    ∧ storeModuleHandler (.bool true) "./src/x.js" (.rejected .undefined) []
      = (.fulfilled .undefined, ["Caching failed for module ./src/x.js: undefined"])
    ∧ getAssetHandler (.bool true) "a.js" "H1" (.rejected .undefined) []
      = (.fulfilled .undefined, ["Restoring failed for asset a.js: undefined"]) := by
  refine ⟨?_, ?_, ?_⟩ <;> rfl

end FileCachePlugin

namespace FileCachePlugin

open JS

/-! ## The handlers over the filesystem -/

theorem FileSystem.set_same {Bytes : Type} (fs : FileSystem Bytes) (path : String)
    (content : Option Bytes) : fs.set path content path = content := by
  simp [FileSystem.set]

theorem serializeToFile_fulfilled {Bytes : Type} (S : Serializer Bytes) (value : JSValue)
    (filename : String) (io : WriteOutcome Bytes) (fs : FileSystem Bytes)
    (h : (serializeToFile S value filename io fs).1.isFulfilled = true) :
    ∃ bytes, S.serialize value = .ok bytes
      ∧ (serializeToFile S value filename io fs).2 = fs.set filename (some bytes) := by
  unfold serializeToFile at h ⊢
  cases hser : S.serialize value with
  | error e => simp [hser, Settled.isFulfilled] at h
  | ok bytes =>
    cases io with
    | failed err residue => simp [hser, Settled.isFulfilled] at h
    | completed => exact ⟨bytes, rfl, by simp⟩

theorem serializeToFile_frame {Bytes : Type} (S : Serializer Bytes) (value : JSValue)
    (filename : String) (io : WriteOutcome Bytes) (fs : FileSystem Bytes) (p : String)
    (h : p ≠ filename) : (serializeToFile S value filename io fs).2 p = fs p := by
  unfold serializeToFile
  cases S.serialize value with
  | error e => rfl
  | ok bytes =>
    cases io with
    | failed err residue => simp [FileSystem.set, h]
    | completed => simp [FileSystem.set, h]

theorem deserializeFromFile_file {Bytes : Type} (S : Serializer Bytes) (filename : String)
    (fs : FileSystem Bytes) (bytes : Bytes) (value : JSValue)
    (hfile : fs filename = some bytes) (hdec : S.deserialize bytes = .ok value) :
    deserializeFromFile S filename fs = .fulfilled value := by
  simp [deserializeFromFile, hfile, hdec, settle]

theorem deserializeFromFile_congr {Bytes : Type} (S : Serializer Bytes) (filename : String)
    (fs fs2 : FileSystem Bytes) (h : fs2 filename = fs filename) :
    deserializeFromFile S filename fs2 = deserializeFromFile S filename fs := by
  simp [deserializeFromFile, h]

theorem getModuleHandler_missing (warn : JSValue) (identifier filename : String)
    (console : Console) :
    (getModuleHandler warn identifier (.rejected (noSuchFile filename)) console).1
      = .fulfilled .undefined := by
  by_cases hw : toBoolean warn = true <;>
    simp [getModuleHandler, promiseCatch, getModuleOnRejected, hw, noSuchFile, getProp,
      toStringJS, settle]

theorem getAsset_after_storeAsset {Bytes : Type} (P : Platform) (S : Serializer Bytes)
    (options : Options) (identifier H1 : String) (C1 : JSValue) (io : WriteOutcome Bytes)
    (fs : FileSystem Bytes) (console console2 : Console)
    (hround : ∀ v bytes, S.serialize v = .ok bytes → S.deserialize bytes = .ok v)
    (hstored : (serializeToFile S (.obj [("source", C1), ("hash", .str H1)])
      (storeAssetFilename P options identifier) io fs).1.isFulfilled = true) (h : String) :
    getAsset P S options identifier h
        (storeAsset P S options identifier H1 C1 io fs console).fs console2
      = (.fulfilled (if strictEqualsString (.str H1) h then C1 else .undefined), console2) := by
  obtain ⟨bytes, hser, hfs⟩ := serializeToFile_fulfilled S _ _ io fs hstored
  have hdec := hround _ _ hser
  have hfile : (storeAsset P S options identifier H1 C1 io fs console).fs
      (getAssetFilename P options identifier) = some bytes := by
    show (serializeToFile S _ (storeAssetFilename P options identifier) io fs).2
      (storeAssetFilename P options identifier) = some bytes
    rw [hfs, FileSystem.set_same]
  show getAssetHandler options.warn identifier h
    (deserializeFromFile S (getAssetFilename P options identifier)
      (storeAsset P S options identifier H1 C1 io fs console).fs) console2 = _
  rw [deserializeFromFile_file S _ _ bytes _ hfile hdec]
  exact getAssetHandler_entry _ _ _ _ _ _ _ rfl rfl rfl

theorem getModule_after_storeModule {Bytes : Type} (P : Platform) (S : Serializer Bytes)
    (options : Options) (identifier : String) (R : JSValue) (io : WriteOutcome Bytes)
    (fs : FileSystem Bytes) (console console2 : Console)
    (hround : ∀ v bytes, S.serialize v = .ok bytes → S.deserialize bytes = .ok v)
    (hstored : (serializeToFile S R (storeModuleFilename P options identifier) io
      fs).1.isFulfilled = true) :
    getModule P S options identifier
        (storeModule P S options identifier R io fs console).fs console2
      = (.fulfilled R, console2) := by
  obtain ⟨bytes, hser, hfs⟩ := serializeToFile_fulfilled S _ _ io fs hstored
  have hdec := hround _ _ hser
  have hfile : (storeModule P S options identifier R io fs console).fs
      (getModuleFilename P options identifier) = some bytes := by
    show (serializeToFile S _ (storeModuleFilename P options identifier) io fs).2
      (storeModuleFilename P options identifier) = some bytes
    rw [hfs, FileSystem.set_same]
  show getModuleHandler options.warn identifier
    (deserializeFromFile S (getModuleFilename P options identifier)
      (storeModule P S options identifier R io fs console).fs) console2 = _
  rw [deserializeFromFile_file S _ _ bytes _ hfile hdec]
  rfl

theorem getModuleHandler_promise_congr (warn : JSValue) (id1 id2 : String) (d : Settled)
    (console : Console) :
    (getModuleHandler warn id1 d console).1 = (getModuleHandler warn id2 d console).1 := by
  cases d with
  | fulfilled v => rfl
  | rejected e =>
    simp only [getModuleHandler, promiseCatch, getModuleOnRejected]
    by_cases hw : toBoolean warn = true
    · cases hs : getProp e "stack" with
      | error t => simp [hw, settle]
      | ok stack => cases ht : toStringJS stack <;> simp [hw, ht, settle]
    · simp [hw]

theorem getAssetHandler_promise_congr (warn : JSValue) (id1 id2 hash : String) (d : Settled)
    (console : Console) :
    (getAssetHandler warn id1 hash d console).1
      = (getAssetHandler warn id2 hash d console).1 := by
  cases d with
  | fulfilled v => rfl
  | rejected e =>
    simp only [getAssetHandler, promiseThen, getAssetOnRejected]
    by_cases hw : toBoolean warn = true
    · cases ht : toStringJS e <;> simp [hw, settle]
    · simp [hw]

/-- C3: over a filesystem that is a map from path to content and a serializer
whose decoder undoes its encoder, once `storeAsset(identifier, H1, C1)` has
completed successfully (the promise of `serializeToFile` was fulfilled),
`getAsset(identifier, H1)` is fulfilled with `C1` and `getAsset(identifier, H2)`
is fulfilled with `undefined` for every `H2` other than `H1`; neither writes
to the console. -/
theorem storeAsset_then_getAsset {Bytes : Type} (P : Platform) (S : Serializer Bytes)
    (options : Options) (identifier H1 : String) (C1 : JSValue) (io : WriteOutcome Bytes)
    (fs : FileSystem Bytes) (console console2 : Console)
    (hround : ∀ v bytes, S.serialize v = .ok bytes → S.deserialize bytes = .ok v)
    (hstored : (serializeToFile S (.obj [("source", C1), ("hash", .str H1)])
      (storeAssetFilename P options identifier) io fs).1.isFulfilled = true) :
    getAsset P S options identifier H1
        (storeAsset P S options identifier H1 C1 io fs console).fs console2
      = (.fulfilled C1, console2)
    ∧ ∀ H2, H2 ≠ H1 →
      getAsset P S options identifier H2
          (storeAsset P S options identifier H1 C1 io fs console).fs console2
        = (.fulfilled .undefined, console2) := by
  refine ⟨?_, ?_⟩
  · rw [getAsset_after_storeAsset P S options identifier H1 C1 io fs console console2
      hround hstored]
    simp [strictEqualsString]
  · intro H2 hne
    rw [getAsset_after_storeAsset P S options identifier H1 C1 io fs console console2
      hround hstored]
    have : (H1 == H2) = false := by simpa using fun h => hne h.symm
    simp [strictEqualsString, this]

/-- C3, at `identifier = "a.js"`, `H1 = "H1"`, `C1 = "C1"` on an empty filesystem. -/
theorem storeAsset_then_getAsset_witness :
    getAsset samplePlatform plainSerializer sampleOptions "a.js" "H1"
        (storeAsset samplePlatform plainSerializer sampleOptions "a.js" "H1" (.str "C1")
          .completed emptyFileSystem []).fs []
      = (.fulfilled (.str "C1"), [])
    ∧ ∀ H2, H2 ≠ "H1" →
      getAsset samplePlatform plainSerializer sampleOptions "a.js" H2
          (storeAsset samplePlatform plainSerializer sampleOptions "a.js" "H1" (.str "C1")
            .completed emptyFileSystem []).fs []
        = (.fulfilled .undefined, []) :=
  storeAsset_then_getAsset samplePlatform plainSerializer sampleOptions "a.js" "H1"
    (.str "C1") .completed emptyFileSystem [] []
    (by intro v bytes h; cases h; rfl) rfl

end FileCachePlugin

namespace FileCachePlugin

open JS

/-- C4: over a filesystem that is a map from path to content and a serializer
whose decoder undoes its encoder, once `storeModule(identifier, R)` has completed
successfully (the promise of `serializeToFile` was fulfilled),
`getModule(identifier)` is fulfilled with `R` itself, whatever `R` is and with
no further check; and `getModule` of an identifier whose entry file does not
exist is fulfilled with `undefined`, for every value of `warn`. -/
theorem storeModule_then_getModule {Bytes : Type} (P : Platform) (S : Serializer Bytes)
    (options : Options) (identifier : String) (R : JSValue) (io : WriteOutcome Bytes)
    (fs : FileSystem Bytes) (console console2 : Console)
    (hround : ∀ v bytes, S.serialize v = .ok bytes → S.deserialize bytes = .ok v)
    (hstored : (serializeToFile S R (storeModuleFilename P options identifier) io
      fs).1.isFulfilled = true) :
    getModule P S options identifier
        (storeModule P S options identifier R io fs console).fs console2
      = (.fulfilled R, console2)
    ∧ ∀ (fs0 : FileSystem Bytes) (identifier0 : String) (console0 : Console),
      fs0 (getModuleFilename P options identifier0) = none →
      (getModule P S options identifier0 fs0 console0).1 = .fulfilled .undefined := by
  refine ⟨getModule_after_storeModule P S options identifier R io fs console console2
    hround hstored, ?_⟩
  intro fs0 identifier0 console0 hnone
  show (getModuleHandler options.warn identifier0
    (deserializeFromFile S (getModuleFilename P options identifier0) fs0) console0).1 = _
  simp only [deserializeFromFile, hnone]
  exact getModuleHandler_missing _ _ _ _

/-- C4, at `identifier = "./src/x.js"` and `R = { id: 7 }` on an empty filesystem,
with warnings enabled. -/
theorem storeModule_then_getModule_witness :
    getModule samplePlatform plainSerializer sampleOptions "./src/x.js"
        (storeModule samplePlatform plainSerializer sampleOptions "./src/x.js"
          (.obj [("id", .num 7)]) .completed emptyFileSystem []).fs []
      = (.fulfilled (.obj [("id", .num 7)]), [])
    ∧ ∀ (fs0 : FileSystem JSValue) (identifier0 : String) (console0 : Console),
      fs0 (getModuleFilename samplePlatform sampleOptions identifier0) = none →
      (getModule samplePlatform plainSerializer sampleOptions identifier0 fs0 console0).1
        = .fulfilled .undefined :=
  storeModule_then_getModule samplePlatform plainSerializer sampleOptions "./src/x.js"
    (.obj [("id", .num 7)]) .completed emptyFileSystem [] []
    (by intro v bytes h; cases h; rfl) rfl

/-- C9: a store changes at most the file at its own path, whether the write
completes or fails: every other path holds what it held before, so a `getModule`
or `getAsset` that reads another path returns after the store what it returned
before it; and when a second store to the same identifier completes, the
following get is fulfilled with the later payload. -/
theorem store_changes_only_its_own_file {Bytes : Type} (P : Platform) (S : Serializer Bytes)
    (options : Options) (identifier hash : String) (payload : JSValue)
    (io : WriteOutcome Bytes) (fs : FileSystem Bytes) (console : Console) :
    (∀ p, p ≠ storeModuleFilename P options identifier →
      (storeModule P S options identifier payload io fs console).fs p = fs p)
    ∧ (∀ p, p ≠ storeAssetFilename P options identifier →
      (storeAsset P S options identifier hash payload io fs console).fs p = fs p)
    ∧ (∀ identifier2 c, getModuleFilename P options identifier2
          ≠ storeModuleFilename P options identifier →
        getModule P S options identifier2
          (storeModule P S options identifier payload io fs console).fs c
          = getModule P S options identifier2 fs c)
    ∧ (∀ identifier2 c, getModuleFilename P options identifier2
          ≠ storeAssetFilename P options identifier →
        getModule P S options identifier2
          (storeAsset P S options identifier hash payload io fs console).fs c
          = getModule P S options identifier2 fs c)
    ∧ (∀ identifier2 h2 c, getAssetFilename P options identifier2
          ≠ storeModuleFilename P options identifier →
        getAsset P S options identifier2 h2
          (storeModule P S options identifier payload io fs console).fs c
          = getAsset P S options identifier2 h2 fs c)
    ∧ (∀ identifier2 h2 c, getAssetFilename P options identifier2
          ≠ storeAssetFilename P options identifier →
        getAsset P S options identifier2 h2
          (storeAsset P S options identifier hash payload io fs console).fs c
          = getAsset P S options identifier2 h2 fs c)
    ∧ (∀ later io2 console1 c,
        (∀ v bytes, S.serialize v = .ok bytes → S.deserialize bytes = .ok v) →
        (serializeToFile S later (storeModuleFilename P options identifier) io2
          (storeModule P S options identifier payload io fs console).fs).1.isFulfilled
          = true →
        getModule P S options identifier
          (storeModule P S options identifier later io2
            (storeModule P S options identifier payload io fs console).fs console1).fs c
          = (.fulfilled later, c))
    ∧ (∀ later hash2 io2 console1 c,
        (∀ v bytes, S.serialize v = .ok bytes → S.deserialize bytes = .ok v) →
        (serializeToFile S (.obj [("source", later), ("hash", .str hash2)])
          (storeAssetFilename P options identifier) io2
          (storeAsset P S options identifier hash payload io fs console).fs).1.isFulfilled
          = true →
        getAsset P S options identifier hash2
          (storeAsset P S options identifier hash2 later io2
            (storeAsset P S options identifier hash payload io fs console).fs console1).fs c
          = (.fulfilled later, c)) := by
  have hm : ∀ p, p ≠ storeModuleFilename P options identifier →
      (storeModule P S options identifier payload io fs console).fs p = fs p :=
    fun p hp => serializeToFile_frame S _ _ io fs p hp
  have ha : ∀ p, p ≠ storeAssetFilename P options identifier →
      (storeAsset P S options identifier hash payload io fs console).fs p = fs p :=
    fun p hp => serializeToFile_frame S _ _ io fs p hp
  refine ⟨hm, ha, ?_, ?_, ?_, ?_, ?_, ?_⟩
  · intro identifier2 c hne
    show getModuleHandler _ _ (deserializeFromFile S _ _) c
      = getModuleHandler _ _ (deserializeFromFile S _ _) c
    rw [deserializeFromFile_congr S _ fs _ (hm _ hne)]
  · intro identifier2 c hne
    show getModuleHandler _ _ (deserializeFromFile S _ _) c
      = getModuleHandler _ _ (deserializeFromFile S _ _) c
    rw [deserializeFromFile_congr S _ fs _ (ha _ hne)]
  · intro identifier2 h2 c hne
    show getAssetHandler _ _ _ (deserializeFromFile S _ _) c
      = getAssetHandler _ _ _ (deserializeFromFile S _ _) c
    rw [deserializeFromFile_congr S _ fs _ (hm _ hne)]
  · intro identifier2 h2 c hne
    show getAssetHandler _ _ _ (deserializeFromFile S _ _) c
      = getAssetHandler _ _ _ (deserializeFromFile S _ _) c
    rw [deserializeFromFile_congr S _ fs _ (ha _ hne)]
  · intro later io2 console1 c hround hstored
    exact getModule_after_storeModule P S options identifier later io2 _ console1 c
      hround hstored
  · intro later hash2 io2 console1 c hround hstored
    rw [getAsset_after_storeAsset P S options identifier hash2 later io2 _ console1 c
      hround hstored]
    simp [strictEqualsString]

/-- C9, at a failed write for `"./src/x.js"` that leaves a damaged file: the
asset entry of `"a.js"` stored before is still returned, and a later completed
store of `"./src/x.js"` is what `getModule` then returns. -/
theorem store_changes_only_its_own_file_witness :
    getAsset samplePlatform plainSerializer sampleOptions "a.js" "H1"
        (storeModule samplePlatform plainSerializer sampleOptions "./src/x.js" (.str "m1")
          (.failed (.error "Error" "ENOSPC" "") (some .null))
          (storeAsset samplePlatform plainSerializer sampleOptions "a.js" "H1" (.str "C1")
            .completed emptyFileSystem []).fs []).fs []
      = getAsset samplePlatform plainSerializer sampleOptions "a.js" "H1"
        (storeAsset samplePlatform plainSerializer sampleOptions "a.js" "H1" (.str "C1")
          .completed emptyFileSystem []).fs []
    ∧ getModule samplePlatform plainSerializer sampleOptions "./src/x.js"
        (storeModule samplePlatform plainSerializer sampleOptions "./src/x.js" (.str "m2")
          .completed
          (storeModule samplePlatform plainSerializer sampleOptions "./src/x.js" (.str "m1")
            .completed emptyFileSystem []).fs []).fs []
      = (.fulfilled (.str "m2"), []) :=
  ⟨(store_changes_only_its_own_file samplePlatform plainSerializer sampleOptions
      "./src/x.js" "" (.str "m1") (.failed (.error "Error" "ENOSPC" "") (some .null))
      (storeAsset samplePlatform plainSerializer sampleOptions "a.js" "H1" (.str "C1")
        .completed emptyFileSystem []).fs []).2.2.2.2.1 "a.js" "H1" [] (by decide),
   (store_changes_only_its_own_file samplePlatform plainSerializer sampleOptions
      "./src/x.js" "" (.str "m1") .completed emptyFileSystem []).2.2.2.2.2.2.1
      (.str "m2") .completed [] [] (by intro v bytes h; cases h; rfl) rfl⟩

/-- C10: the get handlers use the identifier only through `toHash(identifier)`:
for identifiers with the same digest, on every filesystem, `getModule` settles
the same way for both and so does `getAsset` for every expected hash; hence a
module stored under one of them is returned by `getModule` of the other, the
entry holding no record of the identifier it was stored under. -/
theorem get_depends_on_digest_only {Bytes : Type} (P : Platform) (S : Serializer Bytes)
    (options : Options) (id1 id2 : String) (fs : FileSystem Bytes)
    (hcollide : toHash P options id1 = toHash P options id2) :
    (∀ console, (getModule P S options id1 fs console).1
        = (getModule P S options id2 fs console).1)
    ∧ (∀ h console, (getAsset P S options id1 h fs console).1
        = (getAsset P S options id2 h fs console).1)
    ∧ (∀ R io console console2,
        (∀ v bytes, S.serialize v = .ok bytes → S.deserialize bytes = .ok v) →
        (serializeToFile S R (storeModuleFilename P options id1) io fs).1.isFulfilled
          = true →
        getModule P S options id2
          (storeModule P S options id1 R io fs console).fs console2
          = (.fulfilled R, console2)) := by
  have hmod : getModuleFilename P options id1 = getModuleFilename P options id2 := by
    simp only [getModuleFilename, hcollide]
  have hasset : getAssetFilename P options id1 = getAssetFilename P options id2 := by
    simp only [getAssetFilename, hcollide]
  refine ⟨?_, ?_, ?_⟩
  · intro console
    show (getModuleHandler _ id1 (deserializeFromFile S (getModuleFilename P options id1) fs)
      console).1 = (getModuleHandler _ id2
        (deserializeFromFile S (getModuleFilename P options id2) fs) console).1
    rw [hmod]
    exact getModuleHandler_promise_congr _ _ _ _ _
  · intro h console
    show (getAssetHandler _ id1 h (deserializeFromFile S (getAssetFilename P options id1) fs)
      console).1 = (getAssetHandler _ id2 h
        (deserializeFromFile S (getAssetFilename P options id2) fs) console).1
    rw [hasset]
    exact getAssetHandler_promise_congr _ _ _ _ _ _
  · intro R io console console2 hround hstored
    obtain ⟨bytes, hser, hfs⟩ := serializeToFile_fulfilled S _ _ io fs hstored
    have hfile : (storeModule P S options id1 R io fs console).fs
        (getModuleFilename P options id2) = some bytes := by
      rw [← hmod]
      show (serializeToFile S _ (storeModuleFilename P options id1) io fs).2
        (storeModuleFilename P options id1) = some bytes
      rw [hfs, FileSystem.set_same]
    show getModuleHandler options.warn id2
      (deserializeFromFile S (getModuleFilename P options id2)
        (storeModule P S options id1 R io fs console).fs) console2 = _
    rw [deserializeFromFile_file S _ _ bytes _ hfile (hround _ _ hser)]
    rfl

end FileCachePlugin

namespace FileCachePlugin

open JS

/-- C10, at the colliding identifiers `"ab.js"` and `"ba.js"`: the module stored
under the first is what `getModule` of the second is fulfilled with. -/
theorem get_depends_on_digest_only_witness :
    toHash samplePlatform sampleOptions "ab.js" = toHash samplePlatform sampleOptions "ba.js"
    ∧ getModule samplePlatform plainSerializer sampleOptions "ba.js"
        (storeModule samplePlatform plainSerializer sampleOptions "ab.js" (.str "R")
          .completed emptyFileSystem []).fs []
      = (.fulfilled (.str "R"), []) :=
  ⟨by decide,
   (get_depends_on_digest_only samplePlatform plainSerializer sampleOptions "ab.js" "ba.js"
      emptyFileSystem (by decide)).2.2 (.str "R") .completed [] []
      (by intro v bytes h; cases h; rfl) rfl⟩

/-! ## File names -/

theorem append_left_cancel (x a b : String) (h : x ++ a = x ++ b) : a = b := by
  have hd := congrArg String.data h
  simp only [String.data_append] at hd
  exact String.ext (List.append_cancel_left hd)

theorem isNameChar_of_isHexDigit (c : Char) (h : isHexDigit c = true) :
    isNameChar c = true := by
  simp only [isHexDigit, isNameChar, Bool.or_eq_true, Bool.and_eq_true, decide_eq_true_eq,
    beq_iff_eq] at h ⊢
  omega

theorem isPlainFileName_digest_append (digest suffix : String)
    (hd : isHexString digest = true) (hs : isPlainFileName suffix = true) :
    isPlainFileName (digest ++ suffix) = true := by
  simp only [isPlainFileName, isHexString, String.toList, String.data_append,
    List.all_append, List.any_append, Bool.and_eq_true, Bool.or_eq_true, List.all_eq_true]
    at hd hs ⊢
  exact ⟨⟨fun c hc => isNameChar_of_isHexDigit c (hd c hc), hs.1⟩, Or.inr hs.2⟩

theorem module_name_ne_asset_name (digest : String) :
    digest ++ ".module.data" ≠ digest ++ ".asset.data" := by
  intro h
  exact absurd (append_left_cancel _ _ _ h) (by decide)

theorem orDefault_configured (s fallback : String) (h : s ≠ "") :
    orDefault (some s) fallback = s := by
  simp [orDefault, h]

theorem toHash_eq_digest (P : Platform) (options : Options) (identifier : String) :
    toHash P options identifier = P.digestHex (hashAlgorithm options) identifier := by
  simp [toHash, createHash, Hash.update, Hash.digest]

/-- C7: with the options `cacheDirectory: dir` and `hashAlgorithm: alg` (both
configured, that is non-empty), `apply` uses `dir` and `alg` themselves,
`toHash(identifier)` is the hex digest of the identifier alone under `alg`,
`storeModule` and `getModule` compute the file name
`join(dir, toHash(identifier) + ".module.data")` and hand exactly it to the
serializer, and `storeAsset` and `getAsset` do so with `".asset.data"`; an
option that is missing or empty is replaced by the default directory, or by
`"md4"`, and for every setting of the options the path is the join of the
directory in use with the digest under the algorithm in use and the suffix of
the kind. The path is thus determined by the directory, the algorithm, the
kind and the identifier; store and get of one kind address the same file; the
module and asset names of one identifier differ, and so do their paths
whenever the digest is a hex string and `join` keeps distinct plain file
names of the directory apart. -/
theorem filename_layout {Bytes : Type} (P : Platform) (S : Serializer Bytes)
    (dir alg : String) (warn : JSValue) (identifier : String)
    (hdir : dir ≠ "") (halg : alg ≠ "") :
    (∀ (a : Option String) (w : JSValue), cacheDirectory P ⟨some dir, a, w⟩ = dir)
    ∧ (∀ (c : Option String) (w : JSValue), hashAlgorithm ⟨c, some alg, w⟩ = alg)
    ∧ (∀ (c a : Option String) (w : JSValue), c = none ∨ c = some "" →
        cacheDirectory P ⟨c, a, w⟩ = P.defaultCacheDirectory)
    ∧ (∀ (c a : Option String) (w : JSValue), a = none ∨ a = some "" →
        hashAlgorithm ⟨c, a, w⟩ = "md4")
    ∧ toHash P ⟨some dir, some alg, warn⟩ identifier = P.digestHex alg identifier
    ∧ storeModuleFilename P ⟨some dir, some alg, warn⟩ identifier
        = P.join dir (P.digestHex alg identifier ++ ".module.data")
    ∧ getModuleFilename P ⟨some dir, some alg, warn⟩ identifier
        = P.join dir (P.digestHex alg identifier ++ ".module.data")
    ∧ storeAssetFilename P ⟨some dir, some alg, warn⟩ identifier
        = P.join dir (P.digestHex alg identifier ++ ".asset.data")
    ∧ getAssetFilename P ⟨some dir, some alg, warn⟩ identifier
        = P.join dir (P.digestHex alg identifier ++ ".asset.data")
    ∧ (∀ module io fs console,
        (storeModule P S ⟨some dir, some alg, warn⟩ identifier module io fs console).fs
          = (serializeToFile S module
              (P.join dir (P.digestHex alg identifier ++ ".module.data")) io fs).2)
    ∧ (∀ fs console,
        getModule P S ⟨some dir, some alg, warn⟩ identifier fs console
          = getModuleHandler warn identifier
              (deserializeFromFile S
                (P.join dir (P.digestHex alg identifier ++ ".module.data")) fs) console)
    ∧ (∀ hash source io fs console,
        (storeAsset P S ⟨some dir, some alg, warn⟩ identifier hash source io fs console).fs
          = (serializeToFile S (.obj [("source", source), ("hash", .str hash)])
              (P.join dir (P.digestHex alg identifier ++ ".asset.data")) io fs).2)
    ∧ (∀ hash fs console,
        getAsset P S ⟨some dir, some alg, warn⟩ identifier hash fs console
          = getAssetHandler warn identifier hash
              (deserializeFromFile S
                (P.join dir (P.digestHex alg identifier ++ ".asset.data")) fs) console)
    ∧ (∀ options : Options,
        storeModuleFilename P options identifier
          = P.join (cacheDirectory P options)
              (P.digestHex (hashAlgorithm options) identifier ++ ".module.data")
        ∧ getModuleFilename P options identifier = storeModuleFilename P options identifier
        ∧ storeAssetFilename P options identifier
          = P.join (cacheDirectory P options)
              (P.digestHex (hashAlgorithm options) identifier ++ ".asset.data")
        ∧ getAssetFilename P options identifier = storeAssetFilename P options identifier)
    ∧ P.digestHex alg identifier ++ ".module.data"
        ≠ P.digestHex alg identifier ++ ".asset.data"
    ∧ (isHexString (P.digestHex alg identifier) = true →
        (∀ a b, isPlainFileName a = true → isPlainFileName b = true →
          P.join dir a = P.join dir b → a = b) →
        storeModuleFilename P ⟨some dir, some alg, warn⟩ identifier
          ≠ storeAssetFilename P ⟨some dir, some alg, warn⟩ identifier
        ∧ getModuleFilename P ⟨some dir, some alg, warn⟩ identifier
          ≠ getAssetFilename P ⟨some dir, some alg, warn⟩ identifier) := by
  have hcd : ∀ (a : Option String) (w : JSValue),
      cacheDirectory P ⟨some dir, a, w⟩ = dir :=
    fun a w => orDefault_configured dir _ hdir
  have hha : ∀ (c : Option String) (w : JSValue), hashAlgorithm ⟨c, some alg, w⟩ = alg :=
    fun c w => orDefault_configured alg _ halg
  have hdigest : toHash P ⟨some dir, some alg, warn⟩ identifier
      = P.digestHex alg identifier := by
    rw [toHash_eq_digest, hha]
  have hmodule : storeModuleFilename P ⟨some dir, some alg, warn⟩ identifier
      = P.join dir (P.digestHex alg identifier ++ ".module.data") := by
    simp only [storeModuleFilename, hcd, hdigest]
  have hasset : storeAssetFilename P ⟨some dir, some alg, warn⟩ identifier
      = P.join dir (P.digestHex alg identifier ++ ".asset.data") := by
    simp only [storeAssetFilename, hcd, hdigest]
  refine ⟨hcd, hha, ?_, ?_, hdigest, hmodule, hmodule, hasset, hasset, ?_, ?_, ?_, ?_, ?_,
    module_name_ne_asset_name _, ?_⟩
  · intro c a w hc
    rcases hc with hc | hc <;> subst hc <;> simp [cacheDirectory, orDefault]
  · intro c a w ha
    rcases ha with ha | ha <;> subst ha <;> simp [hashAlgorithm, orDefault]
  · intro module io fs console
    rw [← hmodule]; rfl
  · intro fs console
    have hget : getModuleFilename P ⟨some dir, some alg, warn⟩ identifier
        = P.join dir (P.digestHex alg identifier ++ ".module.data") := hmodule
    rw [← hget]; rfl
  · intro hash source io fs console
    rw [← hasset]; rfl
  · intro hash fs console
    have hget : getAssetFilename P ⟨some dir, some alg, warn⟩ identifier
        = P.join dir (P.digestHex alg identifier ++ ".asset.data") := hasset
    rw [← hget]; rfl
  · intro options
    refine ⟨?_, rfl, ?_, rfl⟩
    · simp only [storeModuleFilename, toHash_eq_digest]
    · simp only [storeAssetFilename, toHash_eq_digest]
  · intro hhex hjoin
    have hne : storeModuleFilename P ⟨some dir, some alg, warn⟩ identifier
        ≠ storeAssetFilename P ⟨some dir, some alg, warn⟩ identifier := by
      rw [hmodule, hasset]
      intro h
      exact module_name_ne_asset_name _
        (hjoin _ _ (isPlainFileName_digest_append _ _ hhex (by decide))
          (isPlainFileName_digest_append _ _ hhex (by decide)) h)
    exact ⟨hne, hne⟩

/-- C7, at `identifier = "./src/x.js"` with `cacheDirectory: "/cache"` on a
platform whose digest depends on the algorithm: under `hashAlgorithm: "sha1"`
the module file is `/cache/4.module.data` and the asset file
`/cache/4.asset.data`, two different paths; under `"md5"` the module file is
`/cache/d.module.data`. -/
theorem filename_layout_witness :
    storeModuleFilename keyedPlatform ⟨some "/cache", some "sha1", .bool true⟩ "./src/x.js"
      = "/cache/4.module.data"
    ∧ getAssetFilename keyedPlatform ⟨some "/cache", some "sha1", .bool true⟩ "./src/x.js"
      = "/cache/4.asset.data"
    ∧ storeModuleFilename keyedPlatform ⟨some "/cache", some "sha1", .bool true⟩ "./src/x.js"
      ≠ storeAssetFilename keyedPlatform ⟨some "/cache", some "sha1", .bool true⟩
          "./src/x.js"
    ∧ storeModuleFilename keyedPlatform ⟨some "/cache", some "md5", .bool true⟩ "./src/x.js"
      = "/cache/d.module.data" :=
  ⟨(filename_layout keyedPlatform plainSerializer "/cache" "sha1" (.bool true) "./src/x.js"
      (by decide) (by decide)).2.2.2.2.2.1,
   (filename_layout keyedPlatform plainSerializer "/cache" "sha1" (.bool true) "./src/x.js"
      (by decide) (by decide)).2.2.2.2.2.2.2.2.1,
   ((filename_layout keyedPlatform plainSerializer "/cache" "sha1" (.bool true) "./src/x.js"
      (by decide) (by decide)).2.2.2.2.2.2.2.2.2.2.2.2.2.2.2 (by decide)
      (fun a b _ _ h => append_left_cancel _ a b h)).1,
   (filename_layout keyedPlatform plainSerializer "/cache" "md5" (.bool true) "./src/x.js"
      (by decide) (by decide)).2.2.2.2.2.1⟩

end FileCachePlugin

namespace FileCachePlugin

open JS

/-! ## What the handlers do away from the failing outcomes -/

/-- For every decoded entry other than `null`, the `getAsset` handler is
fulfilled with `entry.source` when the entry is not `undefined` and
`entry.hash === hash`, and with `undefined` otherwise; it writes nothing. -/
theorem getAsset_returns_source_iff_hash_matches (warn : JSValue)
    (identifier hash : String) (console : Console) (entry : JSValue)
    (hnull : entry ≠ .null) :
    getAssetHandler warn identifier hash (.fulfilled entry) console
      = (.fulfilled
          (if notUndefined entry && strictEqualsString (propertyOf entry "hash") hash
            then propertyOf entry "source" else .undefined), console) := by
  cases entry with
  | null => exact absurd rfl hnull
  | undefined => rfl
  | bool b => rfl
  | num n => rfl
  | str s => rfl
  | symbol d => rfl
  | error name message stack => rfl
  | obj fields =>
    by_cases hc : strictEqualsString ((fields.lookup "hash").getD .undefined) hash = true <;>
      simp [getAssetHandler, promiseThen, getAssetOnFulfilled, notUndefined, getProp,
        propertyOf, settle, hc]

/-- The entry `{ source: "C1", hash: "H1" }` asked for with `"H1"` and with `"H2"`. -/
theorem getAsset_returns_source_iff_hash_matches_witness :
    getAssetHandler (.bool true) "a.js" "H1"
        (.fulfilled (.obj [("source", .str "C1"), ("hash", .str "H1")])) []
      = (.fulfilled (.str "C1"), [])
    ∧ getAssetHandler (.bool true) "a.js" "H2"
        (.fulfilled (.obj [("source", .str "C1"), ("hash", .str "H1")])) []
      = (.fulfilled .undefined, []) :=
  ⟨getAsset_returns_source_iff_hash_matches (.bool true) "a.js" "H1" []
      (.obj [("source", .str "C1"), ("hash", .str "H1")]) (by simp),
   getAsset_returns_source_iff_hash_matches (.bool true) "a.js" "H2" []
      (.obj [("source", .str "C1"), ("hash", .str "H1")]) (by simp)⟩

/-- When the underlying promise rejects with an `Error` instance, each of the
four handlers is fulfilled with `undefined`, for every value of `warn`; when it
is fulfilled, the store handlers and `getModule` are fulfilled with the same
value. -/
theorem handlers_fulfil_on_error_instances (warn : JSValue) (identifier hash : String)
    (name message stack : String) (value : JSValue) (console : Console) :
    (storeModuleHandler warn identifier (.rejected (.error name message stack)) console).1
      = .fulfilled .undefined
    ∧ (getModuleHandler warn identifier (.rejected (.error name message stack)) console).1
      = .fulfilled .undefined
    ∧ (storeAssetHandler warn identifier (.rejected (.error name message stack)) console).1
      = .fulfilled .undefined
    ∧ (getAssetHandler warn identifier hash (.rejected (.error name message stack))
        console).1 = .fulfilled .undefined
    ∧ storeModuleHandler warn identifier (.fulfilled value) console
      = (.fulfilled value, console)
    ∧ getModuleHandler warn identifier (.fulfilled value) console
      = (.fulfilled value, console)
    ∧ storeAssetHandler warn identifier (.fulfilled value) console
      = (.fulfilled value, console) := by
  by_cases hw : toBoolean warn = true <;>
    simp [storeModuleHandler, getModuleHandler, storeAssetHandler, getAssetHandler,
      promiseCatch, promiseThen, storeModuleOnRejected, getModuleOnRejected,
      storeAssetOnRejected, getAssetOnRejected, toStringJS, getProp, settle, hw]

/-- A handler writes to the console only when the underlying promise is rejected
and `warn` is truthy, and then at most one line; with `warn` falsy nothing is
written at any outcome; a fulfilled promise, a stale asset entry included,
writes nothing for any `warn`; and at a rejection with an `Error` instance
under a truthy `warn` exactly one line is written, made of the handler's
phrase, the identifier, and the error's text (`err.stack` for `getModule`,
the error's string form for the other three). -/
theorem warnings_written (warn : JSValue) (identifier hash : String) (console : Console) :
    (∀ d : Settled,
      ((storeModuleHandler warn identifier d console).2 ≠ console →
        d.isFulfilled = false ∧ toBoolean warn = true)
      ∧ ((getModuleHandler warn identifier d console).2 ≠ console →
        d.isFulfilled = false ∧ toBoolean warn = true)
      ∧ ((storeAssetHandler warn identifier d console).2 ≠ console →
        d.isFulfilled = false ∧ toBoolean warn = true)
      ∧ ((getAssetHandler warn identifier hash d console).2 ≠ console →
        d.isFulfilled = false ∧ toBoolean warn = true))
    ∧ (∀ d : Settled,
      ((storeModuleHandler warn identifier d console).2 = console
        ∨ ∃ text, (storeModuleHandler warn identifier d console).2 = console ++ [text])
      ∧ ((getModuleHandler warn identifier d console).2 = console
        ∨ ∃ text, (getModuleHandler warn identifier d console).2 = console ++ [text])
      ∧ ((storeAssetHandler warn identifier d console).2 = console
        ∨ ∃ text, (storeAssetHandler warn identifier d console).2 = console ++ [text])
      ∧ ((getAssetHandler warn identifier hash d console).2 = console
        ∨ ∃ text, (getAssetHandler warn identifier hash d console).2 = console ++ [text]))
    ∧ (∀ entry : JSValue,
      (getAssetHandler warn identifier hash (.fulfilled entry) console).2 = console)
    ∧ (toBoolean warn = true → ∀ name message stack : String,
      (storeModuleHandler warn identifier (.rejected (.error name message stack)) console).2
        = console ++ ["Caching failed for module " ++ identifier ++ ": "
            ++ errorText name message]
      ∧ (getModuleHandler warn identifier (.rejected (.error name message stack)) console).2
        = console ++ ["Restoring failed for module " ++ identifier ++ ": " ++ stack]
      ∧ (storeAssetHandler warn identifier (.rejected (.error name message stack)) console).2
        = console ++ ["Caching failed for asset " ++ identifier ++ ": "
            ++ errorText name message]
      ∧ (getAssetHandler warn identifier hash (.rejected (.error name message stack))
          console).2
        = console ++ ["Restoring failed for asset " ++ identifier ++ ": "
            ++ errorText name message]) := by
  have hfulfilled : ∀ entry : JSValue,
      (getAssetHandler warn identifier hash (.fulfilled entry) console).2 = console := by
    intro entry
    simp only [getAssetHandler, promiseThen, getAssetOnFulfilled]
    by_cases h1 : notUndefined entry = true
    · cases h2 : getProp entry "hash" with
      | error t => simp [h1]
      | ok h =>
        by_cases h3 : strictEqualsString h hash = true
        · cases h4 : getProp entry "source" <;> simp [h1, h3]
        · simp [h1, h3]
    · simp [h1]
  have hsm : ∀ e, (storeModuleHandler warn identifier (.rejected e) console).2 = console
      ∨ (toBoolean warn = true
        ∧ ∃ text, (storeModuleHandler warn identifier (.rejected e) console).2
          = console ++ [text]) := by
    intro e
    simp only [storeModuleHandler, promiseCatch, storeModuleOnRejected]
    by_cases hw : toBoolean warn = true
    · cases ht : toStringJS e <;> simp [hw, consoleWarn]
    · simp [hw]
  have hgm : ∀ e, (getModuleHandler warn identifier (.rejected e) console).2 = console
      ∨ (toBoolean warn = true
        ∧ ∃ text, (getModuleHandler warn identifier (.rejected e) console).2
          = console ++ [text]) := by
    intro e
    simp only [getModuleHandler, promiseCatch, getModuleOnRejected]
    by_cases hw : toBoolean warn = true
    · cases hs : getProp e "stack" with
      | error t => simp [hw]
      | ok stack => cases ht : toStringJS stack <;> simp [hw, ht, consoleWarn]
    · simp [hw]
  have hsa : ∀ e, (storeAssetHandler warn identifier (.rejected e) console).2 = console
      ∨ (toBoolean warn = true
        ∧ ∃ text, (storeAssetHandler warn identifier (.rejected e) console).2
          = console ++ [text]) := by
    intro e
    simp only [storeAssetHandler, promiseCatch, storeAssetOnRejected]
    by_cases hw : toBoolean warn = true
    · cases ht : toStringJS e <;> simp [hw, consoleWarn]
    · simp [hw]
  have hga : ∀ e, (getAssetHandler warn identifier hash (.rejected e) console).2 = console
      ∨ (toBoolean warn = true
        ∧ ∃ text, (getAssetHandler warn identifier hash (.rejected e) console).2
          = console ++ [text]) := by
    intro e
    simp only [getAssetHandler, promiseThen, getAssetOnRejected]
    by_cases hw : toBoolean warn = true
    · cases ht : toStringJS e <;> simp [hw, consoleWarn]
    · simp [hw]
  refine ⟨?_, ?_, hfulfilled, ?_⟩
  · intro d
    cases d with
    | fulfilled v =>
      exact ⟨fun h => absurd rfl h, fun h => absurd rfl h, fun h => absurd rfl h,
        fun h => absurd (hfulfilled v) h⟩
    | rejected e =>
      refine ⟨fun h => ⟨rfl, ?_⟩, fun h => ⟨rfl, ?_⟩, fun h => ⟨rfl, ?_⟩,
        fun h => ⟨rfl, ?_⟩⟩
      · exact (hsm e).elim (fun h0 => absurd h0 h) (fun h1 => h1.1)
      · exact (hgm e).elim (fun h0 => absurd h0 h) (fun h1 => h1.1)
      · exact (hsa e).elim (fun h0 => absurd h0 h) (fun h1 => h1.1)
      · exact (hga e).elim (fun h0 => absurd h0 h) (fun h1 => h1.1)
  · intro d
    cases d with
    | fulfilled v => exact ⟨Or.inl rfl, Or.inl rfl, Or.inl rfl, Or.inl (hfulfilled v)⟩
    | rejected e =>
      exact ⟨(hsm e).imp id (fun h => h.2), (hgm e).imp id (fun h => h.2),
        (hsa e).imp id (fun h => h.2), (hga e).imp id (fun h => h.2)⟩
  · intro hw name message stack
    simp [storeModuleHandler, getModuleHandler, storeAssetHandler, getAssetHandler,
      promiseCatch, promiseThen, storeModuleOnRejected, getModuleOnRejected,
      storeAssetOnRejected, getAssetOnRejected, toStringJS, getProp, consoleWarn,
      errorText, hw]

/-- A missing file under `warn: true`: the one line `getModule` writes. -/
theorem warnings_written_witness :
    (getModuleHandler (.bool true) "./src/x.js"
        (.rejected (.error "Error" "ENOENT" "Error: ENOENT\n    at open")) []).2
      = ["Restoring failed for module ./src/x.js: Error: ENOENT\n    at open"]
    ∧ (storeAssetHandler (.bool true) "a.js"
        (.rejected (.error "Error" "ENOSPC" "")) []).2
      = ["Caching failed for asset a.js: Error: ENOSPC"] :=
  ⟨((warnings_written (.bool true) "./src/x.js" "" []).2.2.2 rfl "Error" "ENOENT"
      "Error: ENOENT\n    at open").2.1,
   ((warnings_written (.bool true) "a.js" "" []).2.2.2 rfl "Error" "ENOSPC" "").2.2.1⟩

end FileCachePlugin

namespace registerExternalSerializer

open JS

/-! ## The codecs -/

/-- C5 (counterexample): the `CachedSource` wrapping `new OriginalSource("x", "a.js")`
is not what its codec reconstructs from what it wrote, whatever
`sourceAndMap` and `JSON.stringify` return: the value decoded always wraps a
`SourceMapSource` named `"unknown"`. -/
theorem cachedSource_round_trip_changes_wrapped_source :
    ¬ ∃ L : Library,
      (CachedSourceSerializer.deserialize
        ⟨writtenBy (CachedSourceSerializer.serialize L
          ⟨.original ⟨.str "x", .str "a.js"⟩⟩), 0⟩).map Prod.fst
        = some ⟨.original ⟨.str "x", .str "a.js"⟩⟩ := by
  rintro ⟨L, h⟩
  simp [CachedSourceSerializer.deserialize, CachedSourceSerializer.serialize, writtenBy,
    ObjectSerializerContext.write, ObjectDeserializerContext.read] at h

/-- C5 (amended): decoding what the codec wrote for `v` consumes exactly that.
For `RawSource` and `OriginalSource` it reconstructs `v` itself (same `_value`,
same `_name`). For `SourceLocation` it yields the plain location object with
the same `start` and `end` line and column, which carries no other field of
`v`. For `CachedSource` it yields a `CachedSource` wrapping
`new SourceMapSource(source, "unknown", map)`, where `source` is the text and
`map` the `JSON.stringify` text of the map that `v.sourceAndMap({})` returned. -/
theorem codec_round_trips (L : Library) :
    (∀ v : RawSource,
      RawSourceSerializer.deserialize ⟨writtenBy (RawSourceSerializer.serialize v), 0⟩
        = some (v, ⟨[], 1⟩))
    ∧ (∀ v : OriginalSource,
      OriginalSourceSerializer.deserialize
          ⟨writtenBy (OriginalSourceSerializer.serialize v), 0⟩
        = some (v, ⟨[], 2⟩))
    ∧ (∀ v : SourceLocation,
      SourceLocationSerializer.deserialize
          ⟨writtenBy (SourceLocationSerializer.serialize v), 0⟩
        = some (⟨⟨v.start.line, v.start.column⟩, ⟨v.end.line, v.end.column⟩⟩, ⟨[], 4⟩))
    ∧ (∀ v : CachedSource,
      CachedSourceSerializer.deserialize
          ⟨writtenBy (CachedSourceSerializer.serialize L v), 0⟩
        = some (⟨.sourceMap ⟨(L.sourceAndMap v).1, .str "unknown",
            L.stringify (L.sourceAndMap v).2⟩⟩, ⟨[], 2⟩)) := by
  refine ⟨?_, ?_, ?_, ?_⟩ <;> intro v <;> rfl

/-- C6: each codec's `serialize` appends a fixed number of values to the stream
(`CachedSource` 2: source then map; `RawSource` 1; `OriginalSource` 2: source
then name; `SourceLocation` 4: start line, start column, end line, end
column), and its `deserialize`, run on a stream that starts with that many
values, makes exactly as many `read` calls, puts the value read at each
position where the value written at that position came from, and leaves the
stream exactly past them. -/
theorem deserialize_reads_what_serialize_wrote (L : Library)
    (context : ObjectSerializerContext) (rest : List JSValue) (n : Nat) :
    (∀ v : CachedSource,
      (CachedSourceSerializer.serialize L v context).written
        = context.written ++ [(L.sourceAndMap v).1, L.stringify (L.sourceAndMap v).2])
    ∧ (∀ source map : JSValue,
      CachedSourceSerializer.deserialize ⟨[source, map] ++ rest, n⟩
        = some (⟨.sourceMap ⟨source, .str "unknown", map⟩⟩, ⟨rest, n + 2⟩))
    ∧ (∀ v : RawSource,
      (RawSourceSerializer.serialize v context).written = context.written ++ [v._value])
    ∧ (∀ source : JSValue,
      RawSourceSerializer.deserialize ⟨[source] ++ rest, n⟩
        = some (⟨source⟩, ⟨rest, n + 1⟩))
    ∧ (∀ v : OriginalSource,
      (OriginalSourceSerializer.serialize v context).written
        = context.written ++ [v._value, v._name])
    ∧ (∀ source name : JSValue,
      OriginalSourceSerializer.deserialize ⟨[source, name] ++ rest, n⟩
        = some (⟨source, name⟩, ⟨rest, n + 2⟩))
    ∧ (∀ v : SourceLocation,
      (SourceLocationSerializer.serialize v context).written
        = context.written ++ [v.start.line, v.start.column, v.end.line, v.end.column])
    ∧ (∀ startLine startColumn endLine endColumn : JSValue,
      SourceLocationSerializer.deserialize
          ⟨[startLine, startColumn, endLine, endColumn] ++ rest, n⟩
        = some (⟨⟨startLine, startColumn⟩, ⟨endLine, endColumn⟩⟩, ⟨rest, n + 4⟩)) := by
  refine ⟨?_, ?_, ?_, ?_, ?_, ?_, ?_, ?_⟩
  · intro v
    simp [CachedSourceSerializer.serialize, ObjectSerializerContext.write]
  · intro source map; rfl
  · intro v
    simp [RawSourceSerializer.serialize, ObjectSerializerContext.write, RawSource.source]
  · intro source; rfl
  · intro v
    simp [OriginalSourceSerializer.serialize, ObjectSerializerContext.write,
      OriginalSource.source]
  · intro source name; rfl
  · intro v
    simp [SourceLocationSerializer.serialize, ObjectSerializerContext.write]
  · intro startLine startColumn endLine endColumn; rfl

end registerExternalSerializer
